import Mathlib

/-!
Shallow embedding of `src/plugins/win-capture/duplicator-monitor-capture.c`
(the OBS monitor duplication capture source).

The session struct `struct duplicator_capture` becomes the record
`DuplicatorCapture`.  The external graphics/duplication API
(`gs_duplicator_create`, `gs_duplicator_update_frame`,
`gs_duplicator_get_texture`, `gs_texture_get_width/height`,
`gs_get_duplicator_monitor_info`, `cursor_capture`) is modelled by an
environment oracle `Env` giving the outcome of each external call during one
operation, and every operation additionally returns the list of external API
calls it issued (`ApiCall`), so that claims about which calls happen can be
stated.

`float` quantities (`reset_timeout`, `seconds`) are modelled as rationals:
every value the claims exercise (sums of 1.0 compared against 3.0) is exactly
representable in IEEE single precision, so the rational model is exact there.
The C `%` operator on `int` is truncated division remainder, i.e. `Int.tmod`.
The pointer field `gs_duplicator_t *duplicator` is modelled by a `Bool`
(`true` = non-null handle held).
-/

namespace DuplicatorMonitorCapture

/-- `RESET_INTERVAL_SEC` from the source: the fixed 3.0-second retry gate. -/
def RESET_INTERVAL_SEC : ℚ := 3

/-- The session state, `struct duplicator_capture` (the `source` pointer and
the opaque cursor bitmap state carry no state the claims mention and are
omitted; `capture_cursor` decides whether cursor calls are issued). -/
structure DuplicatorCapture where
  monitor : Int
  capture_cursor : Bool
  x : Int
  y : Int
  rot : Int
  width : Nat
  height : Nat
  duplicator : Bool
  reset_timeout : ℚ
deriving DecidableEq

/-- Oracle for the external duplication API during one operation:
whether `gs_duplicator_create` succeeds, whether
`gs_duplicator_update_frame` succeeds, what `gs_texture_get_width/height`
report for the duplicated texture, and the monitor geometry written by
`gs_get_duplicator_monitor_info` (when that call fails the zero-initialized
`monitor_info = {0}` is read back, which is the same as the oracle reporting
zeros, so the oracle always reports values). -/
structure Env where
  createOk : Bool
  updateOk : Bool
  texWidth : Nat
  texHeight : Nat
  monX : Int
  monY : Int
  monRot : Int
deriving DecidableEq

/-- The two persisted host settings read by `update_settings`. -/
structure Settings where
  monitor : Int
  capture_cursor : Bool
deriving DecidableEq

/-- External API calls an operation can issue, for tracing. -/
inductive ApiCall where
  | createDuplicator (monitor : Int)
  | destroyDuplicator
  | updateFrame
  | cursorCapture
  | getTexture
  | geometryQuery (monitor : Int)
deriving DecidableEq

/-- Number of `gs_get_duplicator_monitor_info` calls in a trace. -/
def countGeometryQueries (log : List ApiCall) : Nat :=
  (log.filter fun c =>
    match c with
    | ApiCall.geometryQuery _ => true
    | _ => false).length

/-- `update_settings`: reads the two settings, destroys any held duplicator,
attempts to create a new one for the (new) monitor, then unconditionally
zeroes `width`, `height`, `x`, `y`, `rot` and `reset_timeout`.  The record
below is the state at the moment the function returns. -/
def update_settings (env : Env) (capture : DuplicatorCapture)
    (settings : Settings) : DuplicatorCapture :=
  { capture with
      monitor := settings.monitor
      capture_cursor := settings.capture_cursor
      duplicator := env.createOk
      width := 0
      height := 0
      x := 0
      y := 0
      rot := 0
      reset_timeout := 0 }

/-- `duplicator_capture_update` (the host-facing configure entry point): it
just forwards to `update_settings`. -/
def duplicator_capture_update (env : Env) (capture : DuplicatorCapture)
    (settings : Settings) : DuplicatorCapture :=
  update_settings env capture settings

/-- `duplicator_capture_create`: `bzalloc` zeroes every field, then
`update_settings` runs on the zeroed struct. -/
def duplicator_capture_create (env : Env) (settings : Settings) :
    DuplicatorCapture :=
  update_settings env
    { monitor := 0, capture_cursor := false, x := 0, y := 0, rot := 0,
      width := 0, height := 0, duplicator := false, reset_timeout := 0 }
    settings

/-- `reset_capture_data`: queries the duplicated texture and the monitor
geometry and caches width/height/x/y/rot from them. -/
def reset_capture_data (env : Env) (capture : DuplicatorCapture) :
    DuplicatorCapture × List ApiCall :=
  ({ capture with
       width := env.texWidth
       height := env.texHeight
       x := env.monX
       y := env.monY
       rot := env.monRot },
   [ApiCall.getTexture, ApiCall.geometryQuery capture.monitor])

/-- First half of `duplicator_capture_tick`, lines 129-138: while unbound,
accumulate `seconds` into `reset_timeout`; once the accumulator reaches
`RESET_INTERVAL_SEC`, attempt `gs_duplicator_create` (the handle becomes
non-null exactly when creation succeeds) and zero the accumulator. -/
def tick_unbound_phase (env : Env) (capture : DuplicatorCapture)
    (seconds : ℚ) : DuplicatorCapture × List ApiCall :=
  let t := capture.reset_timeout + seconds
  if RESET_INTERVAL_SEC ≤ t then
    ({ capture with duplicator := env.createOk, reset_timeout := 0 },
     [ApiCall.createDuplicator capture.monitor])
  else
    ({ capture with reset_timeout := t }, [])

/-- Second half of `duplicator_capture_tick`, lines 140-157: with a bound
duplicator, optionally sample the cursor, then `gs_duplicator_update_frame`;
on failure destroy the duplicator and zero all cached state, on success
refresh geometry via `reset_capture_data` iff `width == 0`. -/
def tick_bound_phase (env : Env) (capture : DuplicatorCapture) :
    DuplicatorCapture × List ApiCall :=
  let cursorLog := if capture.capture_cursor then [ApiCall.cursorCapture]
                   else []
  if env.updateOk = false then
    ({ capture with duplicator := false, width := 0, height := 0,
                    x := 0, y := 0, rot := 0, reset_timeout := 0 },
     cursorLog ++ [ApiCall.updateFrame, ApiCall.destroyDuplicator])
  else if capture.width = 0 then
    ((reset_capture_data env capture).1,
     cursorLog ++ [ApiCall.updateFrame] ++ (reset_capture_data env capture).2)
  else
    (capture, cursorLog ++ [ApiCall.updateFrame])

/-- The `if (!!capture->duplicator)` guard around the bound-phase body. -/
def tick_phase2 (env : Env) (p1 : DuplicatorCapture × List ApiCall) :
    DuplicatorCapture × List ApiCall :=
  if p1.1.duplicator = true then
    ((tick_bound_phase env p1.1).1, p1.2 ++ (tick_bound_phase env p1.1).2)
  else p1

/-- `duplicator_capture_tick`: early return when the source is not showing,
otherwise the unbound retry phase followed by the bound frame-update phase
(the second `if` in the source observes the duplicator possibly created by
the first). -/
def duplicator_capture_tick (env : Env) (capture : DuplicatorCapture)
    (seconds : ℚ) (showing : Bool) : DuplicatorCapture × List ApiCall :=
  if showing = false then (capture, [])
  else
    tick_phase2 env
      (if capture.duplicator = false then tick_unbound_phase env capture seconds
       else (capture, []))

/-- `duplicator_capture_width`: effective width after rotation
(`rot % 180 == 0 ? width : height`, with C truncated `%`). -/
def duplicator_capture_width (capture : DuplicatorCapture) : Nat :=
  if Int.tmod capture.rot 180 = 0 then capture.width else capture.height

/-- `duplicator_capture_height`: effective height after rotation. -/
def duplicator_capture_height (capture : DuplicatorCapture) : Nat :=
  if Int.tmod capture.rot 180 = 0 then capture.height else capture.width

/-- The effective (post-rotation) dimension pair reported to the host. -/
def effectiveDims (capture : DuplicatorCapture) : Nat × Nat :=
  (duplicator_capture_width capture, duplicator_capture_height capture)

/-- The `switch (rot)` inside `duplicator_capture_render` that picks the
translation: it has no `default` case, so any rotation outside
{90, 180, 270} leaves the translation variables unset (`none` models the
uninitialized read the C code would perform). -/
def switch_translate (rot : Int) (width height : Nat) :
    Option (Nat × Nat) :=
  if rot = 90 then some (height, 0)
  else if rot = 180 then some (width, height)
  else if rot = 270 then some (0, width)
  else none

/-- The model transform `duplicator_capture_render` pushes before drawing the
captured texture: `none` means no matrix push at all (identity, the `rot == 0`
path); `some (t, a)` means translate by `t` (when `t = none`, by the
uninitialized values) then rotate by `a` degrees about Z. -/
def render_transform (rot : Int) (width height : Nat) :
    Option (Option (Nat × Nat) × Int) :=
  if rot = 0 then none
  else some (switch_translate rot width height, rot)

/-- Everything observable `duplicator_capture_render` emits for one draw:
the transform around the texture quad, and whether/where/how the cursor
overlay is drawn (`draw_cursor` passes offset `(-x, -y)` and the effective
dimensions as the clip box). -/
structure RenderOutput where
  transform : Option (Option (Nat × Nat) × Int)
  cursorDrawn : Bool
  cursorOffsetX : Int
  cursorOffsetY : Int
  cursorClipW : Nat
  cursorClipH : Nat
deriving DecidableEq

/-- `duplicator_capture_render`: draws nothing when no duplicator is bound or
the duplicator yields no texture (`hasTexture` is the oracle for
`gs_duplicator_get_texture` returning non-null); otherwise emits one textured
quad under `render_transform` plus the optional cursor overlay. -/
def duplicator_capture_render (hasTexture : Bool)
    (capture : DuplicatorCapture) : Option RenderOutput :=
  if capture.duplicator = false then none
  else if hasTexture = false then none
  else some
    { transform := render_transform capture.rot capture.width capture.height
      cursorDrawn := capture.capture_cursor
      cursorOffsetX := -capture.x
      cursorOffsetY := -capture.y
      cursorClipW := duplicator_capture_width capture
      cursorClipH := duplicator_capture_height capture }

/-- One host-driven operation on a session, for reachability statements. -/
inductive Op where
  | update (env : Env) (settings : Settings)
  | tick (env : Env) (seconds : ℚ) (showing : Bool)
  | render (hasTexture : Bool)

/-- Apply one operation to the session state (`render` never mutates the
session). -/
def step (capture : DuplicatorCapture) : Op → DuplicatorCapture
  | Op.update env settings => update_settings env capture settings
  | Op.tick env seconds showing =>
      (duplicator_capture_tick env capture seconds showing).1
  | Op.render _ => capture

/-- The session state reached from creation by a sequence of operations. -/
def run (env0 : Env) (settings0 : Settings) (ops : List Op) :
    DuplicatorCapture :=
  List.foldl step (duplicator_capture_create env0 settings0) ops

/-- Environment in which every external acquisition fails. -/
def failEnv : Env :=
  { createOk := false, updateOk := false, texWidth := 0, texHeight := 0,
    monX := 0, monY := 0, monRot := 0 }

/-- Default settings (`monitor` 0; cursor off, irrelevant while unbound). -/
def initialSettings : Settings := { monitor := 0, capture_cursor := false }

/-- State and last-call trace after `n` visible ticks of 1.0 s each from a
fresh session whose every acquisition fails. -/
def runFail : Nat → DuplicatorCapture × List ApiCall
  | 0 => (duplicator_capture_create failEnv initialSettings, [])
  | n + 1 => duplicator_capture_tick failEnv (runFail n).1 1 true

/-- A sample bound, sized, rotated-90 session used as a concrete witness. -/
def sampleBound : DuplicatorCapture :=
  { monitor := 0, capture_cursor := true, x := 10, y := 20, rot := 90,
    width := 1080, height := 1920, duplicator := true, reset_timeout := 0 }

/-- A bound session whose cached rotation is the out-of-contract value 45. -/
def rot45Session : DuplicatorCapture :=
  { monitor := 0, capture_cursor := false, x := 0, y := 0, rot := 45,
    width := 1920, height := 1080, duplicator := true, reset_timeout := 0 }

/-- Environment in which every external call succeeds, reporting a 1920×1080
texture on a monitor at (5, 6) with rotation 0. -/
def okEnv : Env :=
  { createOk := true, updateOk := true, texWidth := 1920, texHeight := 1080,
    monX := 5, monY := 6, monRot := 0 }

/-- A concrete Bound-Unsized session (handle held, geometry not sampled). -/
def boundUnsized : DuplicatorCapture :=
  { monitor := 0, capture_cursor := true, x := 0, y := 0, rot := 0,
    width := 0, height := 0, duplicator := true, reset_timeout := 0 }

/-- A concrete Unbound session whose retry accumulator already reached the
3-second gate. -/
def unboundReady : DuplicatorCapture :=
  { monitor := 0, capture_cursor := true, x := 0, y := 0, rot := 0,
    width := 0, height := 0, duplicator := false, reset_timeout := 3 }

/-! ## Theorems -/

/-- C1: the claim says that for every cached rotation outside
{0, 90, 180, 270} the render step applies the identity transform.  The code
does not: for `rot = 45` it enters the `rot != 0` path, the `switch` has no
matching case so the translation variables stay uninitialized (`none`), and a
45° rotation is still pushed — the transform is `some (none, 45)`, not the
identity `none`.  This evaluates the render step at the failing input. -/
theorem C1_out_of_contract_rotation :
    ∃ out, duplicator_capture_render true rot45Session = some out ∧
      out.transform = some (none, 45) ∧ out.transform ≠ none := by
  refine ⟨_, rfl, ?_, ?_⟩ <;> decide

/-- C3: from any bound state, one visible tick whose frame update fails
leaves the session unbound with the handle cleared and `width`, `height`,
`x`, `y`, `rot`, `reset_timeout` all zero, as a single atomic transition of
the tick function. -/
theorem C3_frame_failure_cold_restart (env : Env) (capture : DuplicatorCapture)
    (seconds : ℚ) (hdup : capture.duplicator = true)
    (hupd : env.updateOk = false) :
    (duplicator_capture_tick env capture seconds true).1 =
      { capture with duplicator := false, width := 0, height := 0,
                     x := 0, y := 0, rot := 0, reset_timeout := 0 } := by
  simp [duplicator_capture_tick, tick_phase2, tick_bound_phase, hdup, hupd]

/-- C3 witness: the cold-restart theorem applied at a concrete bound state. -/
theorem C3_frame_failure_cold_restart_witness :
    (duplicator_capture_tick failEnv sampleBound 1 true).1 =
      { sampleBound with duplicator := false, width := 0, height := 0,
                         x := 0, y := 0, rot := 0, reset_timeout := 0 } :=
  C3_frame_failure_cold_restart failEnv sampleBound 1 rfl rfl

/-- C4: for every starting state, settings input and acquisition outcome,
`update_settings` (the body of the configure entry point) returns with
`width`, `height`, `x`, `y`, `rot` and `reset_timeout` all zero. -/
theorem C4_configure_zeroes_geometry (env : Env) (capture : DuplicatorCapture)
    (settings : Settings) :
    (duplicator_capture_update env capture settings).width = 0 ∧
    (duplicator_capture_update env capture settings).height = 0 ∧
    (duplicator_capture_update env capture settings).x = 0 ∧
    (duplicator_capture_update env capture settings).y = 0 ∧
    (duplicator_capture_update env capture settings).rot = 0 ∧
    (duplicator_capture_update env capture settings).reset_timeout = 0 := by
  simp [duplicator_capture_update, update_settings]

/-- C5: for every rotation in {0, 90, 180, 270} and all cached raw
dimensions, the effective-dimension getters return the raw pair when
`rot % 180 == 0` and the swapped pair when the rotation is 90 or 270, and
feeding the effective pair back through the getters with the same rotation
returns the original pair. -/
theorem C5_effective_dims_swap (rot : Int)
    (hrot : rot = 0 ∨ rot = 90 ∨ rot = 180 ∨ rot = 270)
    (capture : DuplicatorCapture) (hr : capture.rot = rot) :
    effectiveDims capture =
      (if rot = 90 ∨ rot = 270 then (capture.height, capture.width)
       else (capture.width, capture.height)) ∧
    effectiveDims
      { capture with width := (effectiveDims capture).1,
                     height := (effectiveDims capture).2 } =
      (capture.width, capture.height) := by
  rcases hrot with h | h | h | h <;> subst h <;>
    simp [effectiveDims, duplicator_capture_width, duplicator_capture_height,
      hr] <;>
    norm_num [hr, Int.tmod]

/-- C5 witness: the swap theorem applied at rotation 90 on a concrete
1080×1920 session. -/
theorem C5_effective_dims_swap_witness :
    effectiveDims sampleBound =
      (if (90 : Int) = 90 ∨ (90 : Int) = 270
       then (sampleBound.height, sampleBound.width)
       else (sampleBound.width, sampleBound.height)) ∧
    effectiveDims
      { sampleBound with width := (effectiveDims sampleBound).1,
                         height := (effectiveDims sampleBound).2 } =
      (sampleBound.width, sampleBound.height) :=
  C5_effective_dims_swap 90 (Or.inr (Or.inl rfl)) sampleBound rfl

/-- C6: for every bound session with a texture, the render step draws the
quad under exactly `render_transform` of the cached rotation and raw
dimensions, which is: identity (no push) for rotation 0, translate
`(rawHeight, 0)` then rotate 90° for rotation 90, translate
`(rawWidth, rawHeight)` then rotate 180° for rotation 180, and translate
`(0, rawWidth)` then rotate 270° for rotation 270. -/
theorem C6_render_transform_table (capture : DuplicatorCapture)
    (hdup : capture.duplicator = true) :
    ∃ out, duplicator_capture_render true capture = some out ∧
      out.transform = render_transform capture.rot capture.width
        capture.height ∧
      (capture.rot = 0 → out.transform = none) ∧
      (capture.rot = 90 →
        out.transform = some (some (capture.height, 0), 90)) ∧
      (capture.rot = 180 →
        out.transform = some (some (capture.width, capture.height), 180)) ∧
      (capture.rot = 270 →
        out.transform = some (some (0, capture.width), 270)) := by
  have hout : duplicator_capture_render true capture = some
      { transform :=
          render_transform capture.rot capture.width capture.height
        cursorDrawn := capture.capture_cursor
        cursorOffsetX := -capture.x
        cursorOffsetY := -capture.y
        cursorClipW := duplicator_capture_width capture
        cursorClipH := duplicator_capture_height capture } := by
    simp [duplicator_capture_render, hdup]
  refine ⟨_, hout, rfl, ?_, ?_, ?_, ?_⟩ <;>
    intro h <;> simp [render_transform, switch_translate, h]

/-- C6 witness: the transform table applied at a concrete rotation-90
session. -/
theorem C6_render_transform_table_witness :
    ∃ out, duplicator_capture_render true sampleBound = some out ∧
      out.transform = render_transform sampleBound.rot sampleBound.width
        sampleBound.height ∧
      (sampleBound.rot = 0 → out.transform = none) ∧
      (sampleBound.rot = 90 →
        out.transform = some (some (sampleBound.height, 0), 90)) ∧
      (sampleBound.rot = 180 →
        out.transform = some (some (sampleBound.width, sampleBound.height),
          180)) ∧
      (sampleBound.rot = 270 →
        out.transform = some (some (0, sampleBound.width), 270)) :=
  C6_render_transform_table sampleBound rfl

/-- Closed form for the failing-acquisition run: after `n` visible 1.0 s
ticks the session is still the freshly created one except that the retry
accumulator holds `n mod 3` seconds. -/
lemma runFail_state (n : Nat) :
    (runFail n).1 =
      { monitor := 0, capture_cursor := false, x := 0, y := 0, rot := 0,
        width := 0, height := 0, duplicator := false,
        reset_timeout := ((n % 3 : Nat) : ℚ) } := by
  induction n with
  | zero =>
      simp [runFail, duplicator_capture_create, update_settings, failEnv,
        initialSettings]
  | succ n ih =>
      have h3 : n % 3 = 0 ∨ n % 3 = 1 ∨ n % 3 = 2 := by omega
      rcases h3 with h | h | h
      · have h' : (n + 1) % 3 = 1 := by omega
        simp only [runFail, ih, h, h']
        norm_num [duplicator_capture_tick, tick_phase2, tick_unbound_phase,
          tick_bound_phase, RESET_INTERVAL_SEC, failEnv]
      · have h' : (n + 1) % 3 = 2 := by omega
        simp only [runFail, ih, h, h']
        norm_num [duplicator_capture_tick, tick_phase2, tick_unbound_phase,
          tick_bound_phase, RESET_INTERVAL_SEC, failEnv]
      · have h' : (n + 1) % 3 = 0 := by omega
        simp only [runFail, ih, h, h']
        norm_num [duplicator_capture_tick, tick_phase2, tick_unbound_phase,
          tick_bound_phase, RESET_INTERVAL_SEC, failEnv]

/-- C2: in the failing-acquisition run with 1.0 s visible ticks from a fresh
(Unbound) session, the session stays Unbound with the accumulator holding
`n mod 3` seconds after `n` calls, call `n + 1` issues a
`gs_duplicator_create` attempt exactly when it is the 3rd, 6th, 9th, …
call — so no attempt happens before the third call — and after every call
that makes an attempt the accumulator is back to 0. -/
theorem C2_retry_gate (n : Nat) :
    (runFail n).1.duplicator = false ∧
    (runFail n).1.reset_timeout = ((n % 3 : Nat) : ℚ) ∧
    (ApiCall.createDuplicator 0 ∈ (runFail (n + 1)).2 ↔ (n + 1) % 3 = 0) ∧
    ((n + 1) % 3 = 0 → (runFail (n + 1)).1.reset_timeout = 0) := by
  have hs := runFail_state n
  have hs1 := runFail_state (n + 1)
  have h3 : n % 3 = 0 ∨ n % 3 = 1 ∨ n % 3 = 2 := by omega
  rcases h3 with h | h | h
  · have h' : (n + 1) % 3 = 1 := by omega
    refine ⟨by rw [hs], by rw [hs], ?_, by intro hc; omega⟩
    rw [h']
    simp only [runFail, hs, h]
    norm_num [duplicator_capture_tick, tick_phase2, tick_unbound_phase,
      tick_bound_phase, RESET_INTERVAL_SEC, failEnv]
  · have h' : (n + 1) % 3 = 2 := by omega
    refine ⟨by rw [hs], by rw [hs], ?_, by intro hc; omega⟩
    rw [h']
    simp only [runFail, hs, h]
    norm_num [duplicator_capture_tick, tick_phase2, tick_unbound_phase,
      tick_bound_phase, RESET_INTERVAL_SEC, failEnv]
  · have h' : (n + 1) % 3 = 0 := by omega
    refine ⟨by rw [hs], by rw [hs], ?_, ?_⟩
    · rw [h']
      simp only [runFail, hs, h]
      norm_num [duplicator_capture_tick, tick_phase2, tick_unbound_phase,
        tick_bound_phase, RESET_INTERVAL_SEC, failEnv]
    · intro _
      simp [hs1, h']

/-- One tick preserves the property that an absent duplicator forces zero
cached dimensions. -/
lemma tick_preserves_null_unsized (env : Env) (capture : DuplicatorCapture)
    (seconds : ℚ) (showing : Bool)
    (h : capture.duplicator = false →
      capture.width = 0 ∧ capture.height = 0) :
    (duplicator_capture_tick env capture seconds showing).1.duplicator =
        false →
      (duplicator_capture_tick env capture seconds showing).1.width = 0 ∧
      (duplicator_capture_tick env capture seconds showing).1.height = 0 := by
  simp only [duplicator_capture_tick, tick_phase2, tick_unbound_phase,
    tick_bound_phase, reset_capture_data]
  split_ifs <;> simp_all

/-- Every operation sequence preserves the property that an absent
duplicator forces zero cached dimensions. -/
lemma foldl_preserves_null_unsized (ops : List Op) :
    ∀ s : DuplicatorCapture,
      (s.duplicator = false → s.width = 0 ∧ s.height = 0) →
      ((List.foldl step s ops).duplicator = false →
        (List.foldl step s ops).width = 0 ∧
        (List.foldl step s ops).height = 0) := by
  induction ops with
  | nil => intro s hs; simpa using hs
  | cons op rest ih =>
      intro s hs
      simp only [List.foldl_cons]
      refine ih (step s op) ?_
      cases op with
      | update env settings => simp [step, update_settings]
      | tick env seconds showing =>
          exact tick_preserves_null_unsized env s seconds showing hs
      | render ht => simpa [step] using hs

/-- C7: in every state reachable from creation by any sequence of configure,
tick and render operations, a null duplicator handle implies both cached
dimensions are zero. -/
theorem C7_reachable_null_implies_unsized (env0 : Env)
    (settings0 : Settings) (ops : List Op)
    (h : (run env0 settings0 ops).duplicator = false) :
    (run env0 settings0 ops).width = 0 ∧
    (run env0 settings0 ops).height = 0 :=
  foldl_preserves_null_unsized ops (duplicator_capture_create env0 settings0)
    (by simp [duplicator_capture_create, update_settings]) h

/-- C7 witness: the invariant applied to a short concrete run (a failing
tick then a render) in the all-failing environment. -/
theorem C7_reachable_null_implies_unsized_witness :
    (run failEnv initialSettings
        [Op.tick failEnv 1 true, Op.render true]).width = 0 ∧
    (run failEnv initialSettings
        [Op.tick failEnv 1 true, Op.render true]).height = 0 :=
  C7_reachable_null_implies_unsized failEnv initialSettings
    [Op.tick failEnv 1 true, Op.render true]
    (by norm_num [run, step, duplicator_capture_create, update_settings,
      initialSettings, failEnv, duplicator_capture_tick, tick_phase2,
      tick_unbound_phase, RESET_INTERVAL_SEC])

/-- A visible tick from a Bound-Sized state with a successful frame update
changes nothing and issues only the cursor sample and the frame update. -/
lemma tick_bound_sized (env : Env) (capture : DuplicatorCapture)
    (seconds : ℚ) (hdup : capture.duplicator = true)
    (hw : capture.width ≠ 0) (hupd : env.updateOk = true) :
    duplicator_capture_tick env capture seconds true =
      (capture,
       (if capture.capture_cursor then [ApiCall.cursorCapture] else []) ++
         [ApiCall.updateFrame]) := by
  simp [duplicator_capture_tick, tick_phase2, tick_bound_phase, hdup, hupd,
    hw]

/-- C8: a tick while the source is not showing returns the state unchanged
and issues no external API call at all, from every starting state and for
every `seconds`. -/
theorem C8_hidden_tick_noop (env : Env) (capture : DuplicatorCapture)
    (seconds : ℚ) :
    duplicator_capture_tick env capture seconds false = (capture, []) := rfl

/-- C9: a visible tick from Bound-Unsized whose frame update succeeds issues
exactly one monitor-geometry query and ends Bound-Sized with width, height,
origin and rotation all taken from that query; any subsequent visible tick
from the resulting Bound-Sized state whose frame update succeeds issues no
geometry query and returns the state (hence the cached geometry)
unchanged. -/
theorem C9_geometry_query_once (env : Env) (capture : DuplicatorCapture)
    (seconds : ℚ) (hdup : capture.duplicator = true)
    (hw : capture.width = 0) (hupd : env.updateOk = true)
    (htex : env.texWidth ≠ 0) :
    countGeometryQueries
        (duplicator_capture_tick env capture seconds true).2 = 1 ∧
    (duplicator_capture_tick env capture seconds true).1 =
      { capture with width := env.texWidth, height := env.texHeight,
                     x := env.monX, y := env.monY, rot := env.monRot } ∧
    (duplicator_capture_tick env capture seconds true).1.duplicator = true ∧
    (duplicator_capture_tick env capture seconds true).1.width ≠ 0 ∧
    (∀ (env2 : Env) (seconds2 : ℚ), env2.updateOk = true →
      countGeometryQueries
          (duplicator_capture_tick env2
            (duplicator_capture_tick env capture seconds true).1 seconds2
            true).2 = 0 ∧
      (duplicator_capture_tick env2
          (duplicator_capture_tick env capture seconds true).1 seconds2
          true).1 =
        (duplicator_capture_tick env capture seconds true).1) := by
  have h1 : duplicator_capture_tick env capture seconds true =
      ({ capture with width := env.texWidth, height := env.texHeight,
                      x := env.monX, y := env.monY, rot := env.monRot },
       (if capture.capture_cursor then [ApiCall.cursorCapture] else []) ++
         [ApiCall.updateFrame] ++
         [ApiCall.getTexture, ApiCall.geometryQuery capture.monitor]) := by
    simp [duplicator_capture_tick, tick_phase2, tick_bound_phase,
      reset_capture_data, hdup, hupd, hw]
  refine ⟨?_, ?_, ?_, ?_, ?_⟩
  · rw [h1]
    by_cases hc : capture.capture_cursor <;>
      simp [countGeometryQueries, hc, List.filter]
  · rw [h1]
  · rw [h1]
    exact hdup
  · rw [h1]
    exact htex
  · intro env2 seconds2 hupd2
    have h2 := tick_bound_sized env2
      (duplicator_capture_tick env capture seconds true).1 seconds2
      (by rw [h1]; exact hdup) (by rw [h1]; exact htex) hupd2
    rw [h2]
    by_cases hc : capture.capture_cursor <;>
      simp [countGeometryQueries, h1, hc, List.filter]

/-- C9 witness: the geometry-query theorem applied at a concrete
Bound-Unsized session in the all-succeeding environment. -/
theorem C9_geometry_query_once_witness :
    countGeometryQueries
        (duplicator_capture_tick okEnv boundUnsized 1 true).2 = 1 ∧
    (duplicator_capture_tick okEnv boundUnsized 1 true).1 =
      { boundUnsized with width := okEnv.texWidth,
                          height := okEnv.texHeight, x := okEnv.monX,
                          y := okEnv.monY, rot := okEnv.monRot } ∧
    (duplicator_capture_tick okEnv boundUnsized 1 true).1.duplicator =
      true ∧
    (duplicator_capture_tick okEnv boundUnsized 1 true).1.width ≠ 0 ∧
    (∀ (env2 : Env) (seconds2 : ℚ), env2.updateOk = true →
      countGeometryQueries
          (duplicator_capture_tick env2
            (duplicator_capture_tick okEnv boundUnsized 1 true).1 seconds2
            true).2 = 0 ∧
      (duplicator_capture_tick env2
          (duplicator_capture_tick okEnv boundUnsized 1 true).1 seconds2
          true).1 =
        (duplicator_capture_tick okEnv boundUnsized 1 true).1) :=
  C9_geometry_query_once okEnv boundUnsized 1 rfl rfl rfl
    (by norm_num [okEnv])

/-- C10: one visible tick from an Unbound session whose accumulator already
reached the 3-second gate, in an environment where creation and the frame
update both succeed, ends Bound-Sized with the geometry fully populated from
the environment, having issued the creation attempt, the frame update and
exactly one geometry query all in that single call. -/
theorem C10_create_to_sized_one_tick (env : Env)
    (capture : DuplicatorCapture) (seconds : ℚ)
    (hdup : capture.duplicator = false) (hw : capture.width = 0)
    (hacc : RESET_INTERVAL_SEC ≤ capture.reset_timeout) (hsec : 0 ≤ seconds)
    (hcreate : env.createOk = true) (hupd : env.updateOk = true)
    (htex : env.texWidth ≠ 0) :
    (duplicator_capture_tick env capture seconds true).1 =
      { capture with duplicator := true, reset_timeout := 0,
                     width := env.texWidth, height := env.texHeight,
                     x := env.monX, y := env.monY, rot := env.monRot } ∧
    (duplicator_capture_tick env capture seconds true).1.width ≠ 0 ∧
    ApiCall.createDuplicator capture.monitor ∈
      (duplicator_capture_tick env capture seconds true).2 ∧
    ApiCall.updateFrame ∈
      (duplicator_capture_tick env capture seconds true).2 ∧
    countGeometryQueries
        (duplicator_capture_tick env capture seconds true).2 = 1 := by
  have hgate : RESET_INTERVAL_SEC ≤ capture.reset_timeout + seconds := by
    linarith
  have h1 : duplicator_capture_tick env capture seconds true =
      ({ capture with duplicator := true, reset_timeout := 0,
                      width := env.texWidth, height := env.texHeight,
                      x := env.monX, y := env.monY, rot := env.monRot },
       [ApiCall.createDuplicator capture.monitor] ++
         ((if capture.capture_cursor then [ApiCall.cursorCapture]
           else []) ++
          [ApiCall.updateFrame] ++
          [ApiCall.getTexture,
           ApiCall.geometryQuery capture.monitor])) := by
    simp [duplicator_capture_tick, tick_phase2, tick_unbound_phase,
      tick_bound_phase, reset_capture_data, hdup, hupd, hcreate, hw, hgate]
  refine ⟨by rw [h1], by rw [h1]; exact htex, ?_, ?_, ?_⟩ <;>
    rw [h1] <;>
    by_cases hc : capture.capture_cursor <;>
      simp [countGeometryQueries, hc, List.filter]

/-- C10 witness: the single-tick pipeline theorem applied at a concrete
ready-to-retry Unbound session in the all-succeeding environment. -/
theorem C10_create_to_sized_one_tick_witness :
    (duplicator_capture_tick okEnv unboundReady 1 true).1 =
      { unboundReady with duplicator := true, reset_timeout := 0,
                          width := okEnv.texWidth,
                          height := okEnv.texHeight, x := okEnv.monX,
                          y := okEnv.monY, rot := okEnv.monRot } ∧
    (duplicator_capture_tick okEnv unboundReady 1 true).1.width ≠ 0 ∧
    ApiCall.createDuplicator unboundReady.monitor ∈
      (duplicator_capture_tick okEnv unboundReady 1 true).2 ∧
    ApiCall.updateFrame ∈
      (duplicator_capture_tick okEnv unboundReady 1 true).2 ∧
    countGeometryQueries
        (duplicator_capture_tick okEnv unboundReady 1 true).2 = 1 :=
  C10_create_to_sized_one_tick okEnv unboundReady 1 rfl rfl
    (by norm_num [unboundReady, RESET_INTERVAL_SEC]) (by norm_num) rfl rfl
    (by norm_num [okEnv])

end DuplicatorMonitorCapture
